import Mathlib

/-!
# Fleet analytics platform: verified model of the data-transformation logic

A shallow embedding of the data-transformation logic of `src/app.py`
(a pandas/Streamlit dashboard).  Modelling conventions:

* A dataframe is a `List` of rows (structures); row order is list order.
* A datetime value is a timestamp in seconds (`Int`); a date cell is the
  timestamp of its midnight.  A value that pandas would hold as `NaT`/`NaN`
  (from `pd.to_datetime(..., errors='coerce')`, or a `diff` at a group
  boundary) is `none` in an `Option`.
* Pandas comparisons against `NaT`/`NaN` are `False`; the helpers
  `geNaNI`, `ltNaNI`, `ltNaNR`, `gtNaN` reproduce exactly that.
* Float division `Distance / Duration` is modelled by `PFloat`
  (finite rational, `posInf`, `negInf`, or `nan`), following IEEE/numpy:
  `x / 0` is `±inf` for `x ≠ 0` and `nan` for `x = 0`; anything over
  `NaN` is `nan`.
* `groupby` (default `sort=True`) produces one row per distinct key, keys
  in ascending order; counts count the group rows, sums over a column
  with missing values skip them (`skipna=True`).
* `sort_values` on several columns is `numpy.lexsort`, which is stable,
  with `NaT` placed last; a stable sort is modelled by
  `List.insertionSort` with the matching order.  `sort_values` on one
  column with `ascending=False` is, per pandas `nargsort`, the REVERSE of
  the ascending indexer (numpy's sort acts stably on the small arrays
  considered here), which reverses the relative order of tied rows.
* String comparison (`sort=True` group keys) is code-point lexicographic,
  written out structurally (`charListLt`) so that the kernel can evaluate
  it; `.str.lower()` is likewise the structural `lowerStr`, which agrees
  with Python's `str.lower` on the ASCII statuses at stake.
-/

namespace Fleet

/-- A row of the `Trips` sheet after the three `pd.to_datetime(..., errors='coerce')`
calls of `src/app.py` lines 32-34: each date/time cell is its parse result,
`none` being `NaT` (an unparsable cell). -/
structure RawTrip where
  tripId : String
  vehicleId : String
  driverId : String
  tripDate : Option Int
  startTime : Option Int
  endTime : Option Int
  distance : Rat
deriving DecidableEq, Repr

/-- A preprocessed trip row: the raw columns plus the two derived columns
added by `src/app.py` lines 35-36. -/
structure Trip where
  tripId : String
  vehicleId : String
  driverId : String
  tripDate : Option Int
  startTime : Option Int
  endTime : Option Int
  distance : Rat
  tripDateTime : Option Int
  duration : Option Rat
deriving DecidableEq, Repr

/-- `Series >= c` where the series holds datetimes: a `NaT` compares `False`. -/
def geNaNI (d : Option Int) (c : Int) : Bool :=
  match d with
  | some x => decide (c ≤ x)
  | none => false

/-- `Series < c` where the series holds datetimes: a `NaT` compares `False`. -/
def ltNaNI (d : Option Int) (c : Int) : Bool :=
  match d with
  | some x => decide (x < c)
  | none => false

/-- `a < b` on nullable floats: any comparison with `NaN` is `False`. -/
def ltNaNR (a b : Option Rat) : Bool :=
  match a, b with
  | some x, some y => decide (x < y)
  | _, _ => false

/-- `x > c` on a nullable float: a `NaN` compares `False`. -/
def gtNaN (x : Option Rat) (c : Rat) : Bool :=
  match x with
  | some q => decide (c < q)
  | none => false

/-- Trip preprocessing, `src/app.py` lines 31-36, for one row.
`Trip DateTime` recombines the calendar date of `Trip Date` (its
`strftime('%Y-%m-%d')`, i.e. the midnight floor) with the time of day of
`Start Time` (its `strftime('%H:%M:%S')`), and is `NaT` when either part is
missing.  `Duration (hrs)` is `(End Time - Start Time).dt.total_seconds() / 3600`,
missing when either time is missing; it is NOT clamped at zero. -/
def preprocess (r : RawTrip) : Trip :=
  { tripId := r.tripId
    vehicleId := r.vehicleId
    driverId := r.driverId
    tripDate := r.tripDate
    startTime := r.startTime
    endTime := r.endTime
    distance := r.distance
    tripDateTime :=
      match r.tripDate, r.startTime with
      | some d, some s => some (d - d % 86400 + s % 86400)
      | _, _ => none
    duration :=
      match r.startTime, r.endTime with
      | some s, some e => some (((e - s : Int) : Rat) / 3600)
      | _, _ => none }

/-- The whole `Trips` sheet preprocessed (the column assignments of
`src/app.py` lines 32-36 act row by row). -/
def preprocessTrips (rows : List RawTrip) : List Trip :=
  rows.map preprocess

/-! ## String order and lower-casing, structurally -/

/-- Code-point lexicographic strict order on character lists. -/
def charListLt : List Char → List Char → Bool
  | [], [] => false
  | [], _ :: _ => true
  | _ :: _, [] => false
  | a :: as, b :: bs => decide (a < b) || (a == b && charListLt as bs)

/-- Lexicographic strict order on strings (Python's `<` on `str`). -/
def strLt (a b : String) : Bool := charListLt a.data b.data

/-- Lexicographic order on strings: `a ≤ b` iff not `b < a`. -/
def strLe (a b : String) : Bool := !(strLt b a)

/-- Python `str.lower` on one character (ASCII range). -/
def lowerChar (c : Char) : Char :=
  if 65 ≤ c.toNat ∧ c.toNat ≤ 90 then Char.ofNat (c.toNat + 32) else c

/-- Python `str.lower` (`.str.lower()` on a column of ASCII statuses). -/
def lowerStr (s : String) : String := ⟨s.data.map lowerChar⟩

/-! ## groupby keys -/

/-- Comparison used to order group keys (pandas `groupby` with the default
`sort=True` emits groups in ascending key order). -/
def keyLe (a b : String) : Prop := strLe a b = true

instance : DecidableRel keyLe := fun a b => by unfold keyLe; infer_instance

/-- The distinct keys of a `groupby`, in ascending order. -/
def groupKeys (l : List String) : List String :=
  l.dedup.insertionSort keyLe

/-! ## Analysis 1, short term: underutilized vehicles over the last 7 days
(`src/app.py` lines 69-75) -/

/-- `date_cutoff = datetime.now() - timedelta(days=7)` (line 69), with `now`
a timestamp in seconds. -/
def cutoff7 (now : Int) : Int := now - 7 * 86400

/-- `recent_trips = trips_df[trips_df['Trip Date'] >= date_cutoff]` (line 70).
A row whose `Trip Date` is `NaT` fails the comparison and is dropped. -/
def recentTrips (now : Int) (trips : List Trip) : List Trip :=
  trips.filter (fun t => geNaNI t.tripDate (cutoff7 now))

/-- The 7-day trip count of one vehicle: the `'Trip ID': 'count'` aggregate of
its group of `recent_trips` (lines 72-75). -/
def tripCount7 (now : Int) (trips : List Trip) (v : String) : Nat :=
  ((recentTrips now trips).filter (fun t => t.vehicleId == v)).length

/-- The 7-day distance sum of one vehicle: the `'Distance': 'sum'` aggregate of
its group of `recent_trips` (lines 72-75). -/
def distance7 (now : Int) (trips : List Trip) (v : String) : Rat :=
  (((recentTrips now trips).filter (fun t => t.vehicleId == v)).map Trip.distance).sum

/-- The `summary` dataframe of lines 72-75: one row per vehicle appearing in
`recent_trips`, with its 7-day trip count and distance sum. -/
def summary7 (now : Int) (trips : List Trip) : List (String × Nat × Rat) :=
  (groupKeys ((recentTrips now trips).map Trip.vehicleId)).map
    (fun v => (v, tripCount7 now trips v, distance7 now trips v))

/-! ## Analysis 1, long term: consistent underutilization
(`src/app.py` lines 96-126) -/

/-- One row of the `full_summary` dataframe (lines 97-108). -/
structure VSummary where
  vehicleId : String
  totalTrips : Nat
  totalDistance : Rat
  firstDate : Option Int
  lastDate : Option Int
  daysActive : Option Int
  avgTripsWeek : Option Rat
deriving DecidableEq, Repr

/-- The group of trips of one vehicle. -/
def vGroup (trips : List Trip) (v : String) : List Trip :=
  trips.filter (fun t => t.vehicleId == v)

/-- The `full_summary` row of one vehicle (lines 97-108):
`Total Trips` and `Total Distance` aggregate the group; `First/Last Trip Date`
are the min/max of the group's `Trip Date` values, skipping `NaT`;
`Days Active = (Last - First).dt.days + 1`; and
`Avg Trips/Week = Total Trips / (Days Active / 7)` in float arithmetic,
`NaN` (`none`) when the vehicle has no parseable trip date. -/
def vSummary (trips : List Trip) (v : String) : VSummary :=
  let g := vGroup trips v
  let dates := g.filterMap Trip.tripDate
  let da : Option Int :=
    match dates.min?, dates.max? with
    | some f, some l => some ((l - f) / 86400 + 1)
    | _, _ => none
  { vehicleId := v
    totalTrips := g.length
    totalDistance := (g.map Trip.distance).sum
    firstDate := dates.min?
    lastDate := dates.max?
    daysActive := da
    avgTripsWeek := da.map (fun d => (g.length : Rat) / ((d : Rat) / 7)) }

/-- The `full_summary` dataframe (lines 97-108): one row per distinct
`Vehicle ID`, keys ascending. -/
def longTermSummary (trips : List Trip) : List VSummary :=
  (groupKeys (trips.map Trip.vehicleId)).map (vSummary trips)

/-- Pandas `Series.mean()`: the mean of the non-missing values, `NaN` (`none`)
when there are none. -/
def meanList (l : List Rat) : Option Rat :=
  if l = [] then none else some (l.sum / l.length)

/-- `fleet_avg` (lines 111-114): the mean of `Avg Trips/Week` over the rows of
`full_summary` with `Days Active >= 28`.  When no vehicle has been active 28
days this is the mean of an empty selection: `NaN` (`none`).  The code guards
nothing here. -/
def fleetAvg (trips : List Trip) : Option Rat :=
  meanList (((longTermSummary trips).filter
    (fun s => geNaNI s.daysActive 28)).filterMap VSummary.avgTripsWeek)

/-- The `Status` column of `full_summary` (lines 122-126):
`'Too New' if row['Days Active'] < 28 else ('Underutilized' if
row['Avg Trips/Week'] < fleet_avg else 'Utilized')`, with Python/pandas
`NaN` comparison semantics (any comparison with `NaN` is `False`). -/
def statusOf (favg : Option Rat) (s : VSummary) : String :=
  if ltNaNI s.daysActive 28 then "Too New"
  else if ltNaNR s.avgTripsWeek favg then "Underutilized"
  else "Utilized"

/-- The displayed long-term table: every `full_summary` row with its `Status`. -/
def longTermStatuses (trips : List Trip) : List (VSummary × String) :=
  (longTermSummary trips).map (fun s => (s, statusOf (fleetAvg trips) s))

/-! ## Analysis 2: allocated vs available vehicles
(`src/app.py` lines 146-158) -/

/-- A row of the `Vehicles` sheet. -/
structure Vehicle where
  vehicleId : String
  status : String
deriving DecidableEq, Repr

/-- `len(vehicles_df[vehicles_df['Status'].str.lower() == s])`
(lines 147-148): the number of vehicles whose `Status`, lower-cased, is `s`. -/
def countStatus (vs : List Vehicle) (s : String) : Nat :=
  (vs.filter (fun v => lowerStr v.status == s)).length

/-- `pct = (len(allocated) / max(len(available), 1)) * 100` (line 157):
the zero divisor is replaced by 1, never skipped. -/
def allocationRatio (vs : List Vehicle) : Rat :=
  ((countStatus vs "allocated" : Rat) / ((max (countStatus vs "available") 1 : Nat) : Rat)) * 100

/-! ## Analysis 3: high idle time (`src/app.py` lines 161-165) -/

/-- Order on nullable datetimes used by `sort_values`: `NaT` sorts last
(`na_position='last'`). -/
def dtLeNaLast : Option Int → Option Int → Bool
  | _, none => true
  | none, some _ => false
  | some a, some b => decide (a ≤ b)

/-- The lexicographic `sort_values(['Vehicle ID', 'Trip DateTime'])` order. -/
def tripLe (a b : Trip) : Bool :=
  strLt a.vehicleId b.vehicleId ||
    (a.vehicleId == b.vehicleId && dtLeNaLast a.tripDateTime b.tripDateTime)

/-- `tripLe` as a relation, for `List.insertionSort`. -/
def tripR (a b : Trip) : Prop := tripLe a b = true

instance : DecidableRel tripR := fun a b => by unfold tripR; infer_instance

/-- `trips_sorted` (line 162): a stable sort (numpy lexsort) by
`(Vehicle ID, Trip DateTime)`. -/
def tripsSorted (trips : List Trip) : List Trip :=
  trips.insertionSort tripR

/-- The `Idle Time (hrs)` of one row, given the previous `Trip DateTime` of
its vehicle: `groupby('Vehicle ID')['Trip DateTime'].diff()` over 3600.
Missing (`NaN`) when the vehicle has no previous row (`prev = none`) or when
either datetime involved is `NaT`. -/
def idleVal (prev : Option (Option Int)) (cur : Option Int) : Option Rat :=
  match prev, cur with
  | some (some p), some c => some (((c - p : Int) : Rat) / 3600)
  | _, _ => none

/-- The entry of vehicle `v` in the running map from vehicle to the
`Trip DateTime` of its most recent row: `some dt` when seen, `none` never seen. -/
def lookupSeen (seen : List (String × Option Int)) (v : String) : Option (Option Int) :=
  (seen.find? (fun q => q.1 == v)).map Prod.snd

/-- Line 163: walk the sorted rows, pairing each with its `Idle Time (hrs)` -
the per-vehicle `diff` of `Trip DateTime` in hours.  `seen` carries the last
`Trip DateTime` of each vehicle already passed. -/
def annotateIdle : List Trip → List (String × Option Int) → List (Trip × Option Rat)
  | [], _ => []
  | t :: rest, seen =>
    (t, idleVal (lookupSeen seen t.vehicleId) t.tripDateTime) ::
      annotateIdle rest ((t.vehicleId, t.tripDateTime) :: seen)

/-- `high_idle = trips_sorted[trips_sorted['Idle Time (hrs)'] > 6]` (line 164):
rows whose idle time exceeds 6 hours; a missing idle time compares `False`.
The displayed projection's `.dropna()` (line 165) drops nothing further:
every kept row already has a non-missing idle time, and the id columns are
strings. -/
def highIdle (trips : List Trip) : List (Trip × Option Rat) :=
  (annotateIdle (tripsSorted trips) []).filter (fun p => gtNaN p.2 6)

/-- The `seen` map after walking a list of rows (proof helper describing
`annotateIdle`'s accumulator). -/
def seenAfter (l : List Trip) (seen : List (String × Option Int)) :
    List (String × Option Int) :=
  l.foldl (fun s t => (t.vehicleId, t.tripDateTime) :: s) seen

/-! ## Analysis 5: high/low driver trip counts (`src/app.py` lines 182-194) -/

/-- A row of `driver_stats` (lines 183-186). -/
structure DriverStat where
  driverId : String
  tripCount : Nat
  dutyHours : Rat
deriving DecidableEq, Repr

/-- The group of trips of one driver. -/
def dGroup (trips : List Trip) (d : String) : List Trip :=
  trips.filter (fun t => t.driverId == d)

/-- `driver_stats` (lines 183-186): per driver, the trip count and the sum of
`Duration (hrs)` (skipping missing durations); one row per distinct
`Driver ID`, keys ascending (`groupby` default `sort=True`). -/
def driverStats (trips : List Trip) : List DriverStat :=
  (groupKeys (trips.map Trip.driverId)).map
    (fun d => { driverId := d
                tripCount := (dGroup trips d).length
                dutyHours := ((dGroup trips d).filterMap Trip.duration).sum })

/-- Ascending comparison on `Trip Count`. -/
def countR (a b : DriverStat) : Prop := a.tripCount ≤ b.tripCount

instance : DecidableRel countR := fun a b => by unfold countR; infer_instance

/-- The ascending `sort_values(by='Trip Count')` indexer.  Numpy's sort is
stable on the small arrays considered here, so this is a stable sort. -/
def sortByCount (stats : List DriverStat) : List DriverStat :=
  stats.insertionSort countR

/-- `top_10` (line 188): pandas implements `ascending=False` (`nargsort`) by
reversing the ascending indexer, then `head(10)`. -/
def top10 (stats : List DriverStat) : List DriverStat :=
  ((sortByCount stats).reverse).take 10

/-- `bottom_10` (line 189): ascending sort, then `head(10)`. -/
def bottom10 (stats : List DriverStat) : List DriverStat :=
  (sortByCount stats).take 10

/-! ## Analysis 6: long trip vs expected duration (`src/app.py` lines 197-200) -/

/-- A pandas float64 cell: finite, infinite, or `NaN`. -/
inductive PFloat where
  | num (q : Rat)
  | posInf
  | negInf
  | nan
deriving DecidableEq, Repr

/-- Float division of a (present) numerator by a nullable denominator,
IEEE-style as numpy performs it: division by zero yields a signed infinity
(or `NaN` for `0/0`), and any operation on `NaN` yields `NaN`.  It never
raises. -/
def pdivide (x : Rat) (d : Option Rat) : PFloat :=
  match d with
  | none => PFloat.nan
  | some q =>
    if q = 0 then
      if 0 < x then PFloat.posInf
      else if x < 0 then PFloat.negInf
      else PFloat.nan
    else PFloat.num (x / q)

/-- `trips_df['Speed (km/h)'] = trips_df['Distance'] / trips_df['Duration (hrs)']`
(line 199). -/
def speed (t : Trip) : PFloat := pdivide t.distance t.duration

/-- `Expected Duration (hrs) = Distance / 40` (line 198). -/
def expectedDuration (t : Trip) : Rat := t.distance / 40

/-- `v < c` on pandas floats: `-inf < c` is `True`, `+inf < c` is `False`,
and any comparison with `NaN` is `False`. -/
def pltC (v : PFloat) (c : Rat) : Bool :=
  match v with
  | PFloat.num q => decide (q < c)
  | PFloat.negInf => true
  | _ => false

/-- `long_trips = trips_df[trips_df['Speed (km/h)'] < 10]` (line 200). -/
def longTrips (trips : List Trip) : List Trip :=
  trips.filter (fun t => pltC (speed t) 10)

/-! ## Concrete datasets used to witness or refute the claims -/

/-- A raw trip whose `End Time` (second 3600) precedes its `Start Time`
(second 7200). -/
def rC3 : RawTrip := ⟨"T1", "V1", "D1", some 0, some 7200, some 3600, 10⟩

/-- Two vehicles, none with status `available` (note the mixed case). -/
def vsC2 : List Vehicle := [⟨"V1", "Allocated"⟩, ⟨"V2", "In Shop"⟩]

/-- A fleet consisting of one vehicle with a single trip: its `Days Active`
is 1, so no vehicle reaches the 28-day maturity bar. -/
def tC1 : Trip := ⟨"T1", "V1", "D1", some 0, some 0, some 3600, 50, some 0, some 1⟩

/-- Vehicle `V1`: one trip on day 0 (`Days Active` = 1). -/
def tC4a : Trip := ⟨"T1", "V1", "D1", some 0, some 0, some 3600, 50, some 0, some 1⟩

/-- Vehicle `V2`: a trip on day 0. -/
def tC4b : Trip := ⟨"T2", "V2", "D1", some 0, some 0, some 3600, 50, some 0, some 1⟩

/-- Vehicle `V2`: a trip on day 27 (`Days Active` = 28). -/
def tC4c : Trip := ⟨"T3", "V2", "D1", some 2332800, some 0, some 3600, 50, some 2332800, some 1⟩

/-- A fleet with one too-new vehicle and one 28-day vehicle. -/
def tripsC4 : List Trip := [tC4a, tC4b, tC4c]

/-- Vehicle `A`, first trip (`Trip DateTime` second 0). -/
def tC5a : Trip := ⟨"T1", "A", "D1", some 0, some 0, some 3600, 50, some 0, some 1⟩

/-- Vehicle `A`, second trip, 24 hours later. -/
def tC5b : Trip := ⟨"T2", "A", "D1", some 86400, some 0, some 3600, 50, some 86400, some 1⟩

/-- Vehicle `B`, sole trip. -/
def tC5c : Trip := ⟨"T3", "B", "D2", some 0, some 0, some 3600, 60, some 0, some 1⟩

/-- An unsorted trips table for the idle-time analysis. -/
def tripsC5 : List Trip := [tC5c, tC5b, tC5a]

/-- A trip dated exactly 7 days before an analysis time of `now = 0`. -/
def tC6 : Trip := ⟨"T1", "V1", "D1", some (-604800), some 0, some 3600, 50, some 0, some 1⟩

/-- A trip whose `Duration (hrs)` is missing. -/
def tC7a : Trip := ⟨"T1", "V1", "D1", some 0, none, some 3600, 10, some 0, none⟩

/-- A trip with positive distance and zero duration. -/
def tC7b : Trip := ⟨"T2", "V1", "D1", some 0, some 0, some 0, 10, some 0, some 0⟩

/-- Driver `A`'s sole trip (row 1). -/
def tC8a : Trip := ⟨"T1", "V1", "A", some 0, some 0, some 3600, 50, some 0, some 1⟩

/-- Driver `B`'s sole trip (row 2). -/
def tC8b : Trip := ⟨"T2", "V2", "B", some 0, some 0, some 3600, 50, some 0, some 1⟩

/-- Two drivers tied at one trip each; `driver_stats` lists `A` before `B`. -/
def tripsC8 : List Trip := [tC8a, tC8b]

/-- A trip whose `Trip Date` failed to parse (`NaT`). -/
def tC10 : Trip := ⟨"T1", "V1", "D1", none, some 0, some 3600, 50, none, some 1⟩

/-! ## Theorems -/

/-- Claim C3: for every trip row with parseable `Start Time` and `End Time`,
the preprocessor sets `Duration (hrs) = (End Time - Start Time)` in seconds
divided by 3600, exactly; and the value is negative (not clamped to zero,
not coerced to missing) whenever `End Time < Start Time`. -/
theorem duration_exact_and_signed (r : RawTrip) (s e : Int)
    (hs : r.startTime = some s) (he : r.endTime = some e) :
    (preprocess r).duration = some (((e - s : Int) : Rat) / 3600) ∧
    (e < s → ∀ q, (preprocess r).duration = some q → q < 0) := by
  have hdur : (preprocess r).duration = some (((e - s : Int) : Rat) / 3600) := by
    simp [preprocess, hs, he]
  refine ⟨hdur, fun hlt q hq => ?_⟩
  rw [hdur] at hq
  obtain rfl : q = ((e - s : Int) : Rat) / 3600 := (Option.some.injEq _ _).mp hq.symm
  apply div_neg_of_neg_of_pos
  · exact_mod_cast Int.sub_neg_of_lt hlt
  · norm_num

/-- Witness for C3 at a concrete backwards trip: `Start Time` second 7200,
`End Time` second 3600 give duration `-1` hour, reported negative. -/
theorem duration_exact_and_signed_witness :
    (preprocess rC3).duration = some (((3600 - 7200 : Int) : Rat) / 3600) ∧
    ((3600 : Int) < 7200 → ∀ q, (preprocess rC3).duration = some q → q < 0) :=
  ⟨(duration_exact_and_signed rC3 7200 3600 rfl rfl).1,
   fun h => (duration_exact_and_signed rC3 7200 3600 rfl rfl).2 h⟩

/-- Claim C9: the preprocessor only parses the three date/time columns and
adds the derived `Trip DateTime` and `Duration (hrs)` columns: the
`Trip ID`, `Vehicle ID`, `Driver ID` and `Distance` columns are unchanged,
and the number and order of rows are unchanged.  (Date/time cells are
modelled by their parse results, so the parsed columns are carried over
unchanged as well.) -/
theorem preprocess_frame (rows : List RawTrip) :
    (preprocessTrips rows).length = rows.length ∧
    (preprocessTrips rows).map (fun t => (t.tripId, t.vehicleId, t.driverId, t.distance)) =
      rows.map (fun r => (r.tripId, r.vehicleId, r.driverId, r.distance)) ∧
    (preprocessTrips rows).map Trip.tripDate = rows.map RawTrip.tripDate ∧
    (preprocessTrips rows).map Trip.startTime = rows.map RawTrip.startTime ∧
    (preprocessTrips rows).map Trip.endTime = rows.map RawTrip.endTime := by
  refine ⟨?_, ?_, ?_, ?_, ?_⟩ <;>
    simp [preprocessTrips, preprocess, List.map_map, Function.comp]

/-- Claim C2: the allocation ratio is `allocated / max(available, 1) × 100`;
with 0 `available` vehicles and `N` `allocated` ones it equals `N × 100`
(the guard substitutes a divisor of 1; nothing is skipped, nothing raises). -/
theorem allocation_ratio_guard (vs : List Vehicle)
    (h : countStatus vs "available" = 0) :
    allocationRatio vs = (countStatus vs "allocated" : Rat) * 100 := by
  unfold allocationRatio
  rw [h]
  norm_num

/-- Witness for C2 on a fleet with one (mixed-case) allocated vehicle and no
available one. -/
theorem allocation_ratio_guard_witness :
    countStatus vsC2 "available" = 0 ∧ countStatus vsC2 "allocated" = 1 ∧
    allocationRatio vsC2 = (countStatus vsC2 "allocated" : Rat) * 100 :=
  ⟨by decide, by decide, allocation_ratio_guard vsC2 (by decide)⟩

/-- Claim C6: the 7-day window filter keeps exactly the trips with
`Trip Date ≥ now - 7 days`; a trip dated exactly 7 days before the analysis
time lies on the inclusive boundary: it is kept, and it contributes to its
vehicle's 7-day trip count and distance sum. -/
theorem window7_boundary_inclusive (now : Int) (t : Trip) (rest : List Trip)
    (h : t.tripDate = some (now - 7 * 86400)) :
    t ∈ recentTrips now (t :: rest) ∧
    tripCount7 now (t :: rest) t.vehicleId = tripCount7 now rest t.vehicleId + 1 ∧
    distance7 now (t :: rest) t.vehicleId = t.distance + distance7 now rest t.vehicleId := by
  have hge : geNaNI t.tripDate (cutoff7 now) = true := by
    rw [h]; simp [geNaNI, cutoff7]
  have hrec : recentTrips now (t :: rest) = t :: recentTrips now rest := by
    unfold recentTrips
    rw [List.filter_cons, hge]
    simp
  refine ⟨?_, ?_, ?_⟩
  · rw [hrec]; exact List.mem_cons_self _ _
  · unfold tripCount7
    rw [hrec, List.filter_cons]
    simp
  · unfold distance7
    rw [hrec, List.filter_cons]
    simp

/-- Witness for C6: with `now = 0`, a trip dated second `-604800` (exactly
7 × 86400 seconds earlier) is inside the window. -/
theorem window7_boundary_inclusive_witness :
    tC6 ∈ recentTrips 0 [tC6] ∧
    tripCount7 0 [tC6] tC6.vehicleId = tripCount7 0 [] tC6.vehicleId + 1 ∧
    distance7 0 [tC6] tC6.vehicleId = tC6.distance + distance7 0 [] tC6.vehicleId :=
  window7_boundary_inclusive 0 tC6 [] (by decide)

/-- Claim C10: a trip whose `Trip Date` failed to parse (`NaT`) satisfies
neither `Trip Date ≥ cutoff` nor `Trip Date < cutoff`, is silently dropped
by the 7-day filter wherever it sits in the table, and contributes to no
vehicle's 7-day trip count or distance sum. -/
theorem nat_trip_date_excluded (now : Int) (t : Trip) (l1 l2 : List Trip)
    (h : t.tripDate = none) :
    geNaNI t.tripDate (cutoff7 now) = false ∧
    ltNaNI t.tripDate (cutoff7 now) = false ∧
    recentTrips now (l1 ++ t :: l2) = recentTrips now (l1 ++ l2) ∧
    (∀ v, tripCount7 now (l1 ++ t :: l2) v = tripCount7 now (l1 ++ l2) v) ∧
    (∀ v, distance7 now (l1 ++ t :: l2) v = distance7 now (l1 ++ l2) v) := by
  have hge : geNaNI t.tripDate (cutoff7 now) = false := by rw [h]; rfl
  have hlt : ltNaNI t.tripDate (cutoff7 now) = false := by rw [h]; rfl
  have hrec : recentTrips now (l1 ++ t :: l2) = recentTrips now (l1 ++ l2) := by
    unfold recentTrips
    rw [List.filter_append, List.filter_append, List.filter_cons, hge]
    simp
  exact ⟨hge, hlt, hrec,
    fun v => by unfold tripCount7; rw [hrec],
    fun v => by unfold distance7; rw [hrec]⟩

/-- Witness for C10: the `NaT`-dated trip `tC10` placed between two copies of
an in-window table contributes nothing. -/
theorem nat_trip_date_excluded_witness :
    geNaNI tC10.tripDate (cutoff7 0) = false ∧
    ltNaNI tC10.tripDate (cutoff7 0) = false ∧
    recentTrips 0 ([tC6] ++ tC10 :: [tC6]) = recentTrips 0 ([tC6] ++ [tC6]) ∧
    (∀ v, tripCount7 0 ([tC6] ++ tC10 :: [tC6]) v = tripCount7 0 ([tC6] ++ [tC6]) v) ∧
    (∀ v, distance7 0 ([tC6] ++ tC10 :: [tC6]) v = distance7 0 ([tC6] ++ [tC6]) v) :=
  nat_trip_date_excluded 0 tC10 [tC6] [tC6] (by decide)

/-- Claim C7: `Speed (km/h) = Distance / Duration (hrs)` is computed for every
trip without raising (the model is a total function): a missing duration
yields a missing (`NaN`) speed and a zero duration an infinite (or, for
`0/0`, `NaN`) speed; the report keeps exactly the trips with `Speed < 10`,
and a missing speed compares `False`, so such trips are excluded. -/
theorem speed_nan_semantics (trips : List Trip) (t : Trip) :
    (t ∈ longTrips trips ↔ t ∈ trips ∧ pltC (speed t) 10 = true) ∧
    (t.duration = none → speed t = PFloat.nan ∧ t ∉ longTrips trips) ∧
    (t.duration = some 0 →
      speed t = PFloat.posInf ∨ speed t = PFloat.negInf ∨ speed t = PFloat.nan) ∧
    (speed t = PFloat.nan → t ∉ longTrips trips) := by
  have hmem : t ∈ longTrips trips ↔ t ∈ trips ∧ pltC (speed t) 10 = true := by
    simp [longTrips, List.mem_filter]
  have hnan : speed t = PFloat.nan → t ∉ longTrips trips := by
    intro hs hm
    have := (hmem.mp hm).2
    rw [hs] at this
    simp [pltC] at this
  refine ⟨hmem, fun hd => ?_, fun hd => ?_, hnan⟩
  · have hs : speed t = PFloat.nan := by simp [speed, pdivide, hd]
    exact ⟨hs, hnan hs⟩
  · unfold speed pdivide
    rw [hd]
    rcases lt_trichotomy (0 : Rat) t.distance with h | h | h
    · simp [h]
    · simp [← h]
    · simp [h, not_lt_of_gt h]

/-- Witness for C7: a missing duration gives a `NaN` speed and exclusion;
a zero duration gives an infinite-or-`NaN` speed. -/
theorem speed_nan_semantics_witness :
    (speed tC7a = PFloat.nan ∧ tC7a ∉ longTrips [tC7a, tC7b]) ∧
    (speed tC7b = PFloat.posInf ∨ speed tC7b = PFloat.negInf ∨
      speed tC7b = PFloat.nan) :=
  ⟨(speed_nan_semantics [tC7a, tC7b] tC7a).2.1 rfl,
   (speed_nan_semantics [tC7a, tC7b] tC7b).2.2.1 rfl⟩

/-- A nonempty list of rationals has a (`some`) mean. -/
theorem meanList_of_ne_nil {l : List Rat} (h : l ≠ []) : ∃ f, meanList l = some f := by
  unfold meanList
  rw [if_neg h]
  exact ⟨_, rfl⟩

/-- Every row of `full_summary` is the summary of some vehicle id. -/
theorem mem_longTermSummary {trips : List Trip} {s : VSummary}
    (hs : s ∈ longTermSummary trips) : ∃ v, s = vSummary trips v := by
  unfold longTermSummary at hs
  obtain ⟨v, -, rfl⟩ := List.mem_map.mp hs
  exact ⟨v, rfl⟩

/-- `Avg Trips/Week` of a summary row is `Total Trips / (Days Active / 7)`. -/
theorem vSummary_avg (trips : List Trip) (v : String) :
    (vSummary trips v).avgTripsWeek =
      (vSummary trips v).daysActive.map
        (fun d => ((vSummary trips v).totalTrips : Rat) / ((d : Rat) / 7)) := rfl

/-- Claim C4: in the long-term analysis, a vehicle with
`Days Active = (last - first in days) + 1 < 28` is classified `"Too New"`
regardless of trip volume, and a vehicle with `Days Active ≥ 28` is
classified `"Underutilized"` exactly when its
`Avg Trips/Week = Total Trips / (Days Active / 7)` is strictly below the
fleet average (the mean over vehicles with `Days Active ≥ 28`, which is
well defined here since such a vehicle exists), and `"Utilized"` otherwise. -/
theorem longterm_classification (trips : List Trip) (s : VSummary)
    (hs : s ∈ longTermSummary trips) (d : Int) (hd : s.daysActive = some d) :
    (d < 28 → statusOf (fleetAvg trips) s = "Too New") ∧
    (28 ≤ d → ∃ f a, fleetAvg trips = some f ∧ s.avgTripsWeek = some a ∧
      a = (s.totalTrips : Rat) / ((d : Rat) / 7) ∧
      statusOf (fleetAvg trips) s =
        (if a < f then "Underutilized" else "Utilized")) := by
  constructor
  · intro hlt
    unfold statusOf
    rw [hd]
    simp [ltNaNI, hlt]
  · intro hge
    obtain ⟨v, rfl⟩ := mem_longTermSummary hs
    have havg : (vSummary trips v).avgTripsWeek =
        some (((vSummary trips v).totalTrips : Rat) / ((d : Rat) / 7)) := by
      rw [vSummary_avg, hd]
      rfl
    have hfil : vSummary trips v ∈
        (longTermSummary trips).filter (fun s => geNaNI s.daysActive 28) := by
      rw [List.mem_filter]
      refine ⟨hs, ?_⟩
      rw [hd]
      simpa [geNaNI] using hge
    have hmemA : ((vSummary trips v).totalTrips : Rat) / ((d : Rat) / 7) ∈
        ((longTermSummary trips).filter
          (fun s => geNaNI s.daysActive 28)).filterMap VSummary.avgTripsWeek :=
      List.mem_filterMap.mpr ⟨_, hfil, havg⟩
    obtain ⟨f, hf⟩ := meanList_of_ne_nil (List.ne_nil_of_mem hmemA)
    have hfa : fleetAvg trips = some f := hf
    refine ⟨f, _, hfa, havg, rfl, ?_⟩
    unfold statusOf
    rw [hd, havg, hfa]
    have hnl : ltNaNI (some d) 28 = false := by
      simp [ltNaNI]
      omega
    rw [hnl]
    by_cases hlt : ((vSummary trips v).totalTrips : Rat) / ((d : Rat) / 7) < f
    · simp [ltNaNR, hlt]
    · simp [ltNaNR, hlt]

/-- Witness for C4 on `tripsC4`: the 1-day vehicle `V1` is `"Too New"`;
the 28-day vehicle `V2` is eligible and classified against the fleet mean. -/
theorem longterm_classification_witness :
    statusOf (fleetAvg tripsC4) (vSummary tripsC4 "V1") = "Too New" ∧
    (∃ f a, fleetAvg tripsC4 = some f ∧
      (vSummary tripsC4 "V2").avgTripsWeek = some a ∧
      a = ((vSummary tripsC4 "V2").totalTrips : Rat) / (((28 : Int) : Rat) / 7) ∧
      statusOf (fleetAvg tripsC4) (vSummary tripsC4 "V2") =
        (if a < f then "Underutilized" else "Utilized")) :=
  ⟨(longterm_classification tripsC4 _ (List.mem_map.mpr ⟨"V1", by decide, rfl⟩)
      1 (by decide)).1 (by norm_num),
   (longterm_classification tripsC4 _ (List.mem_map.mpr ⟨"V2", by decide, rfl⟩)
      28 (by decide)).2 (by norm_num)⟩

/-- Claim C1, evaluated: when every vehicle has `Days Active < 28` the code
computes `fleet_avg` as the mean over an EMPTY selection - `NaN` (`none`) -
and reports no insufficient-data condition; the long-term table is still
rendered (every vehicle `"Too New"`), and the `NaN` average is interpolated
into the caption unguarded.  This exhibits the divergence from the claim,
which requires an explicit insufficient-data report. -/
theorem fleet_avg_nan_unhandled :
    fleetAvg [tC1] = none ∧
    (longTermStatuses [tC1]).map Prod.snd = ["Too New"] := by
  exact ⟨by decide, by decide⟩

instance : IsTrans DriverStat countR :=
  ⟨fun _ _ _ hab hbc => Nat.le_trans hab hbc⟩

instance : IsTotal DriverStat countR :=
  ⟨fun a b => Nat.le_total a.tripCount b.tripCount⟩

/-- The ascending `Trip Count` sort is stable: the rows holding any one trip
count come out in their `driver_stats` order. -/
theorem sortByCount_filter_count (stats : List DriverStat) (c : Nat) :
    (sortByCount stats).filter (fun s => s.tripCount == c) =
      stats.filter (fun s => s.tripCount == c) := by
  have h1 : List.Sublist (stats.filter (fun s => s.tripCount == c)) stats :=
    List.filter_sublist _
  have hp : (stats.filter (fun s => s.tripCount == c)).Pairwise countR := by
    apply List.pairwise_of_forall_mem_list
    intro a ha b hb
    have ha' : a.tripCount = c := by simpa using (List.mem_filter.mp ha).2
    have hb' : b.tripCount = c := by simpa using (List.mem_filter.mp hb).2
    unfold countR
    omega
  have h2 : List.Sublist (stats.filter (fun s => s.tripCount == c))
      (List.insertionSort countR stats) := List.sublist_insertionSort hp h1
  have h3 : (stats.filter (fun s => s.tripCount == c)).filter
      (fun s => s.tripCount == c) = stats.filter (fun s => s.tripCount == c) :=
    List.filter_eq_self.mpr (fun a ha => (List.mem_filter.mp ha).2)
  have h4 : List.Sublist (stats.filter (fun s => s.tripCount == c))
      ((List.insertionSort countR stats).filter (fun s => s.tripCount == c)) := by
    have := h2.filter (fun s => s.tripCount == c)
    rwa [h3] at this
  have h5 : ((List.insertionSort countR stats).filter
        (fun s => s.tripCount == c)).length =
      (stats.filter (fun s => s.tripCount == c)).length :=
    ((List.perm_insertionSort countR stats).filter _).length_eq
  exact (h4.eq_of_length h5.symm).symm

/-- Claim C8, refuted at a concrete input: drivers `A` and `B` tie at one
trip each and `driver_stats` lists `A` first, yet the top-10 list is
`[B, A]` - the DESCENDING sort emits ties in REVERSE row order (pandas
reverses the ascending indexer for `ascending=False`), contradicting
"ties broken by original row order" for the top list.  The bottom-10 list
does keep row order. -/
theorem driver_tie_order_counterexample :
    (driverStats tripsC8).map DriverStat.driverId = ["A", "B"] ∧
    (driverStats tripsC8).map DriverStat.tripCount = [1, 1] ∧
    (top10 (driverStats tripsC8)).map DriverStat.driverId = ["B", "A"] ∧
    (bottom10 (driverStats tripsC8)).map DriverStat.driverId = ["A", "B"] :=
  ⟨by decide, by decide, by decide, by decide⟩

/-- Claim C8 as amended: both lists come from one stable ascending sort `L`
of `driver_stats` (so in `L`, and hence in the bottom-10 list, ties keep
their original row order); the bottom-10 list is the first 10 rows of `L`,
and the top-10 list is the first 10 rows of the REVERSE of `L` - descending,
with ties in reverse original row order. -/
theorem driver_tie_order_amended (trips : List Trip) :
    ∃ L : List DriverStat,
      L.Perm (driverStats trips) ∧
      L.Pairwise countR ∧
      (∀ c : Nat, L.filter (fun s => s.tripCount == c) =
        (driverStats trips).filter (fun s => s.tripCount == c)) ∧
      bottom10 (driverStats trips) = L.take 10 ∧
      top10 (driverStats trips) = L.reverse.take 10 :=
  ⟨sortByCount (driverStats trips),
   List.perm_insertionSort _ _,
   List.sorted_insertionSort _ _,
   fun c => sortByCount_filter_count _ c,
   rfl, rfl⟩

/-- `charListLt` is transitive. -/
theorem charListLt_trans (a : List Char) : ∀ b c, charListLt a b = true →
    charListLt b c = true → charListLt a c = true := by
  induction a with
  | nil =>
    intro b c hab hbc
    cases b with
    | nil => simp [charListLt] at hab
    | cons y ys =>
      cases c with
      | nil => simp [charListLt] at hbc
      | cons z zs => simp [charListLt]
  | cons x xs ih =>
    intro b c hab hbc
    cases b with
    | nil => simp [charListLt] at hab
    | cons y ys =>
      cases c with
      | nil => simp [charListLt] at hbc
      | cons z zs =>
        simp only [charListLt, Bool.or_eq_true, Bool.and_eq_true,
          decide_eq_true_eq, beq_iff_eq] at hab hbc ⊢
        rcases hab with h1 | ⟨rfl, h1⟩
        · rcases hbc with h2 | ⟨rfl, h2⟩
          · exact Or.inl (lt_trans h1 h2)
          · exact Or.inl h1
        · rcases hbc with h2 | ⟨rfl, h2⟩
          · exact Or.inl h2
          · exact Or.inr ⟨rfl, ih _ _ h1 h2⟩

/-- `charListLt` is connected: two lists neither of which is below the other
are equal. -/
theorem charListLt_connex (a : List Char) : ∀ b, charListLt a b = false →
    charListLt b a = false → a = b := by
  induction a with
  | nil =>
    intro b hab _
    cases b with
    | nil => rfl
    | cons y ys => simp [charListLt] at hab
  | cons x xs ih =>
    intro b hab hba
    cases b with
    | nil => simp [charListLt] at hba
    | cons y ys =>
      simp only [charListLt, Bool.or_eq_false_iff, Bool.and_eq_false_iff,
        decide_eq_false_iff_not, beq_eq_false_iff_ne, ne_eq] at hab hba
      obtain rfl : x = y := le_antisymm (le_of_not_lt hba.1) (le_of_not_lt hab.1)
      rcases hab.2 with h | h
      · exact absurd rfl h
      · rcases hba.2 with h' | h'
        · exact absurd rfl h'
        · rw [ih ys h h']

/-- `dtLeNaLast` is transitive. -/
theorem dtLeNaLast_trans : ∀ {a b c : Option Int}, dtLeNaLast a b = true →
    dtLeNaLast b c = true → dtLeNaLast a c = true := by
  intro a b c hab hbc
  cases c with
  | none => cases a <;> rfl
  | some zc =>
    cases b with
    | none => simp [dtLeNaLast] at hbc
    | some yb =>
      cases a with
      | none => simp [dtLeNaLast] at hab
      | some xa =>
        simp only [dtLeNaLast, decide_eq_true_eq] at hab hbc ⊢
        exact le_trans hab hbc

/-- `dtLeNaLast` is total. -/
theorem dtLeNaLast_total : ∀ a b : Option Int,
    dtLeNaLast a b = true ∨ dtLeNaLast b a = true := by
  intro a b
  cases a with
  | none => cases b <;> simp [dtLeNaLast]
  | some xa =>
    cases b with
    | none => simp [dtLeNaLast]
    | some yb =>
      simp only [dtLeNaLast, decide_eq_true_eq]
      exact Int.le_total xa yb

instance : IsTrans Trip tripR := by
  constructor
  intro a b c hab hbc
  unfold tripR tripLe strLt at hab hbc ⊢
  simp only [Bool.or_eq_true, Bool.and_eq_true, beq_iff_eq] at hab hbc ⊢
  rcases hab with h1 | ⟨he1, h1⟩
  · rcases hbc with h2 | ⟨he2, h2⟩
    · exact Or.inl (charListLt_trans _ _ _ h1 h2)
    · exact Or.inl (he2 ▸ h1)
  · rcases hbc with h2 | ⟨he2, h2⟩
    · exact Or.inl (he1 ▸ h2)
    · exact Or.inr ⟨he1.trans he2, dtLeNaLast_trans h1 h2⟩

instance : IsTotal Trip tripR := by
  constructor
  intro a b
  unfold tripR tripLe strLt
  simp only [Bool.or_eq_true, Bool.and_eq_true, beq_iff_eq]
  by_cases h1 : charListLt a.vehicleId.data b.vehicleId.data = true
  · exact Or.inl (Or.inl h1)
  · by_cases h2 : charListLt b.vehicleId.data a.vehicleId.data = true
    · exact Or.inr (Or.inl h2)
    · have he : a.vehicleId = b.vehicleId :=
        String.ext (charListLt_connex _ _
          (Bool.eq_false_iff.mpr h1) (Bool.eq_false_iff.mpr h2))
      rcases dtLeNaLast_total a.tripDateTime b.tripDateTime with h | h
      · exact Or.inl (Or.inr ⟨he, h⟩)
      · exact Or.inr (Or.inr ⟨he.symm, h⟩)

/-- Unfolding `seenAfter` one row at a time. -/
theorem seenAfter_cons (t : Trip) (l : List Trip)
    (seen : List (String × Option Int)) :
    seenAfter (t :: l) seen = seenAfter l ((t.vehicleId, t.tripDateTime) :: seen) :=
  rfl

/-- `annotateIdle` distributes over append, threading the `seen` map. -/
theorem annotateIdle_append (l1 l2 : List Trip)
    (seen : List (String × Option Int)) :
    annotateIdle (l1 ++ l2) seen =
      annotateIdle l1 seen ++ annotateIdle l2 (seenAfter l1 seen) := by
  induction l1 generalizing seen with
  | nil => rfl
  | cons t l ih => simp [annotateIdle, seenAfter_cons, ih]

/-- `annotateIdle` keeps every row. -/
theorem length_annotateIdle (l : List Trip) (seen : List (String × Option Int)) :
    (annotateIdle l seen).length = l.length := by
  induction l generalizing seen with
  | nil => rfl
  | cons t tl ih => simp [annotateIdle, ih]

/-- Looking a vehicle up after pushing one entry. -/
theorem lookupSeen_cons (w : String × Option Int)
    (seen : List (String × Option Int)) (v : String) :
    lookupSeen (w :: seen) v =
      if w.1 == v then some w.2 else lookupSeen seen v := by
  unfold lookupSeen
  rw [List.find?_cons]
  by_cases h : (w.1 == v) = true
  · simp [h]
  · simp [Bool.eq_false_iff.mpr h]

/-- Rows of vehicles other than `v` do not change `v`'s `seen` entry. -/
theorem lookupSeen_seenAfter_of_not_mem (l : List Trip)
    (seen : List (String × Option Int)) (v : String)
    (h : v ∉ l.map Trip.vehicleId) :
    lookupSeen (seenAfter l seen) v = lookupSeen seen v := by
  induction l generalizing seen with
  | nil => rfl
  | cons t tl ih =>
    simp only [List.map_cons, List.mem_cons, not_or] at h
    rw [seenAfter_cons, ih _ h.2, lookupSeen_cons]
    have : (t.vehicleId == v) = false :=
      beq_eq_false_iff_ne.mpr (fun he => h.1 he.symm)
    simp [this]

/-- A never-seen vehicle has no `seen` entry. -/
theorem lookupSeen_nil (v : String) : lookupSeen [] v = none := rfl

/-- `idleVal` is missing when there is no previous row. -/
theorem idleVal_none (cur : Option Int) : idleVal none cur = none := by
  cases cur <;> rfl

/-- Claim C5: the high-idle analysis sorts the trips by
`(Vehicle ID, Trip DateTime)` (a permutation, ordered under `tripR`),
pairs each sorted row with its per-vehicle `Trip DateTime` difference in
hours, and reports exactly the rows whose idle time is present and above 6
hours (missing idle times are dropped).  The first row of each vehicle in
the sorted order - one preceded by no row of its vehicle - carries a
missing idle time, hence is never reported; every later row of a vehicle
carries the difference from the vehicle's immediately preceding row. -/
theorem idle_time_analysis (trips : List Trip) :
    (tripsSorted trips).Perm trips ∧
    (tripsSorted trips).Pairwise tripR ∧
    (∀ p, p ∈ highIdle trips ↔
      (p ∈ annotateIdle (tripsSorted trips) [] ∧
        ∃ x, p.2 = some x ∧ (6 : Rat) < x)) ∧
    (∀ l1 t l2, tripsSorted trips = l1 ++ t :: l2 →
      t.vehicleId ∉ l1.map Trip.vehicleId →
      ∃ A B, annotateIdle (tripsSorted trips) [] = A ++ (t, none) :: B ∧
        A.length = l1.length) ∧
    (∀ l1 u mid t l2, tripsSorted trips = l1 ++ u :: (mid ++ t :: l2) →
      u.vehicleId = t.vehicleId → t.vehicleId ∉ mid.map Trip.vehicleId →
      ∃ A B, annotateIdle (tripsSorted trips) [] =
          A ++ (t, idleVal (some u.tripDateTime) t.tripDateTime) :: B ∧
        A.length = l1.length + 1 + mid.length) := by
  refine ⟨List.perm_insertionSort _ _, List.sorted_insertionSort _ _, ?_, ?_, ?_⟩
  · intro p
    unfold highIdle
    rw [List.mem_filter]
    cases hx : p.2 with
    | none => simp [gtNaN, hx]
    | some x => simp [gtNaN, hx]
  · intro l1 t l2 hs hnm
    refine ⟨annotateIdle l1 [],
      annotateIdle l2 ((t.vehicleId, t.tripDateTime) :: seenAfter l1 []),
      ?_, length_annotateIdle _ _⟩
    rw [hs, annotateIdle_append]
    simp only [annotateIdle]
    rw [lookupSeen_seenAfter_of_not_mem _ _ _ hnm, lookupSeen_nil, idleVal_none]
  · intro l1 u mid t l2 hs hu hnm
    have hmid : annotateIdle (mid ++ t :: l2)
          ((u.vehicleId, u.tripDateTime) :: seenAfter l1 []) =
        annotateIdle mid ((u.vehicleId, u.tripDateTime) :: seenAfter l1 []) ++
          (t, idleVal (some u.tripDateTime) t.tripDateTime) ::
            annotateIdle l2 ((t.vehicleId, t.tripDateTime) ::
              seenAfter mid ((u.vehicleId, u.tripDateTime) :: seenAfter l1 [])) := by
      rw [annotateIdle_append]
      simp only [annotateIdle]
      rw [lookupSeen_seenAfter_of_not_mem _ _ _ hnm, lookupSeen_cons]
      have hbeq : (u.vehicleId == t.vehicleId) = true := beq_iff_eq.mpr hu
      simp [hbeq]
    refine ⟨annotateIdle l1 [] ++
        (u, idleVal (lookupSeen (seenAfter l1 []) u.vehicleId) u.tripDateTime) ::
          annotateIdle mid ((u.vehicleId, u.tripDateTime) :: seenAfter l1 []),
      annotateIdle l2 ((t.vehicleId, t.tripDateTime) ::
        seenAfter mid ((u.vehicleId, u.tripDateTime) :: seenAfter l1 [])),
      ?_, ?_⟩
    · rw [hs, annotateIdle_append]
      simp only [annotateIdle]
      rw [hmid]
      simp
    · simp [length_annotateIdle]
      omega

/-- Witness for C5 on `tripsC5` (sorted order `[tC5a, tC5b, tC5c]`): the
first row of vehicle `A` carries a missing idle time; its second row
carries the difference from the first. -/
theorem idle_time_analysis_witness :
    (∃ A B, annotateIdle (tripsSorted tripsC5) [] = A ++ (tC5a, none) :: B ∧
      A.length = 0) ∧
    (∃ A B, annotateIdle (tripsSorted tripsC5) [] =
        A ++ (tC5b, idleVal (some tC5a.tripDateTime) tC5b.tripDateTime) :: B ∧
      A.length = 1) :=
  ⟨(idle_time_analysis tripsC5).2.2.2.1 [] tC5a [tC5b, tC5c]
      (by decide) (by decide),
   (idle_time_analysis tripsC5).2.2.2.2 [] tC5a [] tC5b [tC5c]
      (by decide) (by decide) (by decide)⟩

end Fleet
